import Mathlib

/-!
Verification of `loversholiday.py` (coordinate-to-GeoJSON converter).

The Python source is embedded shallowly:
* `strptime_ddmmYYYY` models `datetime.strptime(s, "%d%m%Y")`, including the
  backtracking regex CPython builds for the `%d`, `%m`, `%Y` directives and
  the final "unconverted data remains" length check.
* `calculate_duration`, `format_date`, `create_point_geojson` and
  `read_coordinates_from_file` follow the source line by line; I/O (prints,
  file writes) becomes returned data (diagnostic lists, the document value).
* Latitude/longitude values are modelled as rationals; the program only
  parses plain decimal literals and carries the numbers through unchanged.
-/

/-- Numeric value of a decimal digit character. -/
def digitVal (c : Char) : Nat := c.toNat - 48

/-- A calendar date as produced by a successful `datetime.strptime` call. -/
structure PDate where
  year : Nat
  month : Nat
  day : Nat
deriving DecidableEq

/-- Gregorian leap-year rule used by Python's `datetime`. -/
def isLeap (y : Nat) : Bool := y % 4 == 0 && (y % 100 != 0 || y % 400 == 0)

/-- Length of a month, as in `datetime`. -/
def daysInMonth (y m : Nat) : Nat :=
  if m = 2 then (if isLeap y then 29 else 28)
  else if m = 4 ∨ m = 6 ∨ m = 9 ∨ m = 11 then 30
  else 31

/-- Days in year `y` strictly before month `m`. -/
def daysBeforeMonth (y m : Nat) : Nat :=
  (List.range (m - 1)).foldl (fun a i => a + daysInMonth y (i + 1)) 0

/-- `datetime.date.toordinal`: day number in the proleptic Gregorian
calendar, with 0001-01-01 mapped to 1.  Subtracting two midnight
`datetime` values and taking `.days` equals the difference of ordinals. -/
def toOrdinal (d : PDate) : Nat :=
  let py := d.year - 1
  365 * py + py / 4 - py / 100 + py / 400 + daysBeforeMonth d.year d.month + d.day

/-- The range checks done by the `datetime(year, month, day)` constructor
(`MINYEAR = 1`, `MAXYEAR = 9999`); an out-of-range field raises
`ValueError`, which the script converts to `None`. -/
def isValidDate (y m d : Nat) : Bool :=
  1 ≤ y && y ≤ 9999 && 1 ≤ m && m ≤ 12 && 1 ≤ d && d ≤ daysInMonth y m

/-- The two-character alternatives of CPython's `%d` regex
`3[01]|[12]\d|0[1-9]`, returning the day value on a match. -/
def day2? (c1 c2 : Char) : Option Nat :=
  if c1 = '3' && (c2 = '0' || c2 = '1') then some (30 + digitVal c2)
  else if (c1 = '1' || c1 = '2') && c2.isDigit then some (10 * digitVal c1 + digitVal c2)
  else if c1 = '0' && ('1' ≤ c2 && c2 ≤ '9') then some (digitVal c2)
  else none

/-- The single-character `[1-9]` alternative shared by the `%d` and `%m`
regexes. -/
def oneDigit? (c : Char) : Option Nat :=
  if '1' ≤ c && c ≤ '9' then some (digitVal c) else none

/-- The two-character alternatives of CPython's `%m` regex
`1[0-2]|0[1-9]`. -/
def month2? (c1 c2 : Char) : Option Nat :=
  if c1 = '1' && (c2 = '0' || c2 = '1' || c2 = '2') then some (10 + digitVal c2)
  else if c1 = '0' && ('1' ≤ c2 && c2 ≤ '9') then some (digitVal c2)
  else none

/-- CPython's `%Y` regex: exactly four decimal digits (further characters
are left unconsumed). -/
def year4? : List Char → Option Nat
  | a :: b :: c :: d :: _ =>
    if a.isDigit && b.isDigit && c.isDigit && d.isDigit then
      some (1000 * digitVal a + 100 * digitVal b + 10 * digitVal c + digitVal d)
    else none
  | _ => none

/-- Matching `%m%Y` at the position after a day of width `dlen` with value
`d`; mirrors the regex engine's order: two-character month first, then the
`[1-9]` fallback.  Returns `(day, month, year, matched length)`. -/
def monthYear? (dlen d : Nat) : List Char → Option (Nat × Nat × Nat × Nat)
  | c1 :: c2 :: r2 =>
    match month2? c1 c2, year4? r2 with
    | some m, some y => some (d, m, y, dlen + 6)
    | _, _ =>
      match oneDigit? c1, year4? (c2 :: r2) with
      | some m, some y => some (d, m, y, dlen + 5)
      | _, _ => none
  | _ => none

/-- The full regex match for `"%d%m%Y"` with CPython's backtracking order:
two-character day before one-character day, and within each, two-character
month before one-character month.  The first combination that matches wins;
the total-length check happens afterwards, outside the regex. -/
def tryMatch : List Char → Option (Nat × Nat × Nat × Nat)
  | c1 :: c2 :: r2 =>
    match day2? c1 c2 with
    | some d =>
      match monthYear? 2 d r2 with
      | some res => some res
      | none =>
        match oneDigit? c1 with
        | some d1 => monthYear? 1 d1 (c2 :: r2)
        | none => none
    | none =>
      match oneDigit? c1 with
      | some d1 => monthYear? 1 d1 (c2 :: r2)
      | none => none
  | _ => none

/-- `datetime.strptime(s, "%d%m%Y")` with every failure (`no match`,
`unconverted data remains`, invalid calendar date) collapsed to `none`,
exactly as the script's `except` clauses do. -/
def strptime_ddmmYYYY (s : String) : Option PDate :=
  match tryMatch s.data with
  | some (d, m, y, len) =>
    if len = s.data.length && isValidDate y m d then some ⟨y, m, d⟩ else none
  | none => none

/-- `calculate_duration` (loversholiday.py lines 13-41): parse both tokens
as `ddmmYYYY`; any failure yields `None`, otherwise the signed whole-day
difference `end - start`. -/
def calculate_duration (start_date_str end_date_str : String) : Option Int :=
  match strptime_ddmmYYYY start_date_str, strptime_ddmmYYYY end_date_str with
  | some s, some e => some ((toOrdinal e : Int) - (toOrdinal s : Int))
  | _, _ => none

/-- The character for a decimal digit value (clamped to `'9'`; only used
with arguments below 10). -/
def digitChar (n : Nat) : Char :=
  if n = 0 then '0' else if n = 1 then '1' else if n = 2 then '2'
  else if n = 3 then '3' else if n = 4 then '4' else if n = 5 then '5'
  else if n = 6 then '6' else if n = 7 then '7' else if n = 8 then '8' else '9'

/-- `date_obj.strftime("%Y-%m-%dT%H:%M:%S")` for a midnight `datetime`,
with the year zero-padded to four digits and month/day to two (the layout
documented for the directives and produced for all dates the script can
build from a four-digit year field). -/
def isoRender (y m d : Nat) : String :=
  String.mk [digitChar (y / 1000 % 10), digitChar (y / 100 % 10),
    digitChar (y / 10 % 10), digitChar (y % 10), '-',
    digitChar (m / 10 % 10), digitChar (m % 10), '-',
    digitChar (d / 10 % 10), digitChar (d % 10),
    'T', '0', '0', ':', '0', '0', ':', '0', '0']

/-- The nested `format_date` helper (loversholiday.py lines 80-88): the
sentinel `"unknown"` and the empty string are rejected up front, then the
token is reparsed and re-rendered in ISO form; any parse failure yields
`None`. -/
def format_date (date_str : String) : Option String :=
  if date_str = "unknown" ∨ date_str = "" then none
  else match strptime_ddmmYYYY date_str with
    | some d => some (isoRender d.year d.month d.day)
    | none => none

/-- Field extraction from a rendered ISO date-time string, following the
spec's round-trip property ("parse_fixed_date(format_date_iso(t)-derived
fields)"): read the year, month and day fields back out of a
`"YYYY-MM-DDT00:00:00"` rendering. -/
def readIsoChars : List Char → Option (Nat × Nat × Nat)
  | [y1, y2, y3, y4, '-', m1, m2, '-', d1, d2, 'T', '0', '0', ':', '0', '0', ':', '0', '0'] =>
    if y1.isDigit && y2.isDigit && y3.isDigit && y4.isDigit &&
       m1.isDigit && m2.isDigit && d1.isDigit && d2.isDigit then
      some (1000 * digitVal y1 + 100 * digitVal y2 + 10 * digitVal y3 + digitVal y4,
            10 * digitVal m1 + digitVal m2,
            10 * digitVal d1 + digitVal d2)
    else none
  | _ => none

/-- `readIsoChars` on the characters of a string. -/
def readIsoFields (s : String) : Option (Nat × Nat × Nat) := readIsoChars s.data

/-- An input record: the Python tuple `(lat, lon, name?, start?, end?)`.
`fields` holds the entries from index 2 on, so `fields.get? k` models
`coord[k+2] if len(coord) > k+2 else default`. -/
structure Coord where
  lat : Rat
  lon : Rat
  fields : List String
deriving DecidableEq

/-- One output Feature of the GeoJSON document, with the fields the script
writes (geometry coordinates plus the `properties` object). -/
structure Feature where
  number : Nat
  name : String
  latitude : Rat
  longitude : Rat
  coordinates : List Rat
  start_date : Option String
  end_date : Option String
  duration_days : Option Int
deriving DecidableEq

/-- The output `FeatureCollection` document. -/
structure FeatureCollection where
  features : List Feature
deriving DecidableEq

/-- The loop body of `create_point_geojson` for one record at 1-based
`index` (loversholiday.py lines 67-119). -/
def mkFeature (index : Nat) (coord : Coord) : Feature :=
  let name := match coord.fields.get? 0 with
    | some v => v
    | none => "Point " ++ toString index
  let start_date := match coord.fields.get? 1 with
    | some v => v
    | none => "unknown"
  let end_date := match coord.fields.get? 2 with
    | some v => v
    | none => "unknown"
  { number := index
    name := name
    latitude := coord.lat
    longitude := coord.lon
    coordinates := [coord.lon, coord.lat]
    start_date := format_date start_date
    end_date := format_date end_date
    duration_days := calculate_duration start_date end_date }

/-- The `enumerate(coordinates_list, start=1)` loop of
`create_point_geojson`, appending one feature per record. -/
def buildFeatures : Nat → List Coord → List Feature
  | _, [] => []
  | index, c :: rest => mkFeature index c :: buildFeatures (index + 1) rest

/-- `create_point_geojson` (loversholiday.py lines 44-131); the writing of
the JSON file is elided, the returned document is the value serialized. -/
def create_point_geojson (coordinates_list : List Coord) : FeatureCollection :=
  ⟨buildFeatures 1 coordinates_list⟩

/-- Python `float()` applied to an already-stripped token, for the plain
decimal literals the file format uses: optional sign, digits with an
optional single decimal point, at least one digit.  Any other shape raises
`ValueError`, modelled as `none`. -/
def parseFloat (s : String) : Option Rat :=
  let body : Bool × List Char :=
    match s.data with
    | '-' :: r => (true, r)
    | '+' :: r => (false, r)
    | r => (false, r)
  let ip := body.2.takeWhile Char.isDigit
  let rest := body.2.dropWhile Char.isDigit
  let val : Option Rat :=
    match rest with
    | [] =>
      if ip.isEmpty then none
      else some ((ip.foldl (fun a c => 10 * a + digitVal c) 0 : Nat) : Rat)
    | '.' :: fp =>
      if fp.all Char.isDigit && (!ip.isEmpty || !fp.isEmpty) then
        some (((ip ++ fp).foldl (fun a c => 10 * a + digitVal c) 0 : Nat) / (10 : Rat) ^ fp.length)
      else none
    | _ => none
  match val with
  | some v => some (if body.1 then -v else v)
  | none => none

/-- Python `str.strip()`: remove leading and trailing whitespace (the
ASCII whitespace the modelled inputs can contain). -/
def pyStrip (s : String) : String :=
  String.mk (((s.data.dropWhile Char.isWhitespace).reverse.dropWhile Char.isWhitespace).reverse)

/-- Python `str.split(',')` on a character list: split at every comma,
keeping empty parts. -/
def splitCommaChars : List Char → List (List Char)
  | [] => [[]]
  | c :: rest =>
    if c = ',' then [] :: splitCommaChars rest
    else match splitCommaChars rest with
      | h :: t => (c :: h) :: t
      | [] => [[c]]

/-- Python `str.split(',')`. -/
def pySplitComma (s : String) : List String := (splitCommaChars s.data).map String.mk

/-- Python `str.startswith('#')`. -/
def startsWithHash (s : String) : Bool :=
  match s.data with
  | c :: _ => c = '#'
  | [] => false

/-- The warning printed for a file line with fewer than two fields
(loversholiday.py line 230), keyed by its 1-based line number. -/
def lineSkipDiag (n : Nat) : String :=
  "Line " ++ toString n ++ ": Need at least lat and lon"

/-- The diagnostic printed when the `except ValueError` handler of
`read_coordinates_from_file` fires (loversholiday.py line 248). -/
def fileErrorDiag : String := "Error reading file"

/-- Result of a file read: the accumulated records and the diagnostics
printed, in order. -/
structure ReadResult where
  coordinates : List Coord
  diags : List String
deriving DecidableEq

/-- The line loop of `read_coordinates_from_file` (loversholiday.py lines
220-241): `line_num` is the 1-based line counter, `acc` the records
accumulated so far.  A short line is reported and skipped; a latitude or
longitude that `float()` rejects raises `ValueError`, which the enclosing
handler turns into an immediate return of the records accumulated so far
plus one diagnostic. -/
def readLoop : List String → Nat → List Coord → ReadResult
  | [], _, acc => ⟨acc, []⟩
  | line :: rest, line_num, acc =>
    let l := pyStrip line
    if l = "" ∨ startsWithHash l then
      readLoop rest (line_num + 1) acc
    else
      let parts := pySplitComma l
      if parts.length < 2 then
        let r := readLoop rest (line_num + 1) acc
        ⟨r.coordinates, lineSkipDiag line_num :: r.diags⟩
      else
        match parseFloat (pyStrip (parts.getD 0 "")), parseFloat (pyStrip (parts.getD 1 "")) with
        | some lat, some lon =>
          let name := match parts.get? 2 with
            | some p => pyStrip p
            | none => "Point " ++ toString (acc.length + 1)
          let sd := match parts.get? 3 with
            | some p => pyStrip p
            | none => "unknown"
          let ed := match parts.get? 4 with
            | some p => pyStrip p
            | none => "unknown"
          readLoop rest (line_num + 1) (acc ++ [⟨lat, lon, [name, sd, ed]⟩])
        | _, _ => ⟨acc, [fileErrorDiag]⟩

/-- `read_coordinates_from_file` (loversholiday.py lines 196-250) applied
to the lines of an existing file. -/
def read_coordinates_from_file (lines : List String) : ReadResult :=
  readLoop lines 1 []

/-! ## Helper lemmas -/

theorem buildFeatures_length (l : List Coord) : ∀ n, (buildFeatures n l).length = l.length := by
  induction l with
  | nil => intro n; rfl
  | cons c rest ih => intro n; simp [buildFeatures, ih]

theorem buildFeatures_get? (l : List Coord) :
    ∀ n i, (buildFeatures n l).get? i = (l.get? i).map (fun c => mkFeature (n + i) c) := by
  induction l with
  | nil => intro n i; simp [buildFeatures]
  | cons c rest ih =>
    intro n i
    cases i with
    | zero => simp [buildFeatures]
    | succ j =>
      have h := ih (n + 1) j
      simp only [buildFeatures, List.get?_cons_succ, h]
      have : n + 1 + j = n + (j + 1) := by omega
      rw [this]

theorem calculate_duration_eq (a b : String) (da db : PDate)
    (ha : strptime_ddmmYYYY a = some da) (hb : strptime_ddmmYYYY b = some db) :
    calculate_duration a b = some ((toOrdinal db : Int) - (toOrdinal da : Int)) := by
  unfold calculate_duration
  rw [ha, hb]

theorem calculate_duration_none_left (a b : String) (ha : strptime_ddmmYYYY a = none) :
    calculate_duration a b = none := by
  unfold calculate_duration
  rw [ha]

theorem calculate_duration_none_right (a b : String) (hb : strptime_ddmmYYYY b = none) :
    calculate_duration a b = none := by
  unfold calculate_duration
  rw [hb]
  cases strptime_ddmmYYYY a <;> rfl

theorem format_date_none (t : String) (h : strptime_ddmmYYYY t = none) :
    format_date t = none := by
  unfold format_date
  split
  · rfl
  · rw [h]

theorem format_date_some (t : String) (d : PDate) (h : strptime_ddmmYYYY t = some d) :
    format_date t = some (isoRender d.year d.month d.day) := by
  have h1 : t ≠ "unknown" := by
    intro he
    subst he
    have hn : strptime_ddmmYYYY "unknown" = none := by decide
    rw [hn] at h
    exact Option.noConfusion h
  have h2 : t ≠ "" := by
    intro he
    subst he
    have hn : strptime_ddmmYYYY "" = none := by decide
    rw [hn] at h
    exact Option.noConfusion h
  unfold format_date
  rw [if_neg (fun hc => hc.elim h1 h2), h]

theorem digitChar_isDigit (k : Nat) (hk : k ≤ 9) : (digitChar k).isDigit = true := by
  interval_cases k <;> decide

theorem digitVal_digitChar (k : Nat) (hk : k ≤ 9) : digitVal (digitChar k) = k := by
  interval_cases k <;> decide

theorem daysInMonth_le (y m : Nat) : daysInMonth y m ≤ 31 := by
  unfold daysInMonth
  split_ifs <;> omega

theorem monthYear?_len (r : List Char) (dlen d dd m y L : Nat)
    (h : monthYear? dlen d r = some (dd, m, y, L)) : L = dlen + 5 ∨ L = dlen + 6 := by
  rcases r with _ | ⟨c1, _ | ⟨c2, r2⟩⟩
  · exact Option.noConfusion h
  · exact Option.noConfusion h
  · simp only [monthYear?] at h
    split at h
    · simp only [Option.some.injEq, Prod.mk.injEq] at h
      omega
    · split at h
      · simp only [Option.some.injEq, Prod.mk.injEq] at h
        omega
      · exact Option.noConfusion h

theorem tryMatch_len (cs : List Char) (d m y L : Nat)
    (h : tryMatch cs = some (d, m, y, L)) : 6 ≤ L ∧ L ≤ 8 := by
  rcases cs with _ | ⟨c1, _ | ⟨c2, r2⟩⟩
  · exact Option.noConfusion h
  · exact Option.noConfusion h
  · simp only [tryMatch] at h
    split at h
    · split at h
      · rename_i res heq
        injection h with h
        subst h
        rcases monthYear?_len r2 2 _ d m y L heq with h1 | h1 <;> omega
      · split at h
        · rcases monthYear?_len (c2 :: r2) 1 _ d m y L h with h1 | h1 <;> omega
        · exact Option.noConfusion h
    · split at h
      · rcases monthYear?_len (c2 :: r2) 1 _ d m y L h with h1 | h1 <;> omega
      · exact Option.noConfusion h

theorem strptime_elim (t : String) (d : PDate) (h : strptime_ddmmYYYY t = some d) :
    isValidDate d.year d.month d.day = true ∧ 6 ≤ t.data.length ∧ t.data.length ≤ 8 := by
  unfold strptime_ddmmYYYY at h
  split at h
  · rename_i dd mm yy len heq
    split at h
    · rename_i hcond
      simp only [Bool.and_eq_true, decide_eq_true_eq] at hcond
      injection h with h
      subst h
      have hb := tryMatch_len t.data dd mm yy len heq
      refine ⟨hcond.2, ?_, ?_⟩ <;> omega
    · exact absurd h (by simp)
  · exact absurd h (by simp)

theorem strptime_bounds (t : String) (d : PDate) (h : strptime_ddmmYYYY t = some d) :
    1 ≤ d.year ∧ d.year ≤ 9999 ∧ 1 ≤ d.month ∧ d.month ≤ 12 ∧ 1 ≤ d.day ∧ d.day ≤ 31 := by
  have hv := (strptime_elim t d h).1
  have h31 : daysInMonth d.year d.month ≤ 31 := daysInMonth_le d.year d.month
  simp only [isValidDate, Bool.and_eq_true, decide_eq_true_eq] at hv
  omega

set_option maxHeartbeats 1000000 in
theorem readIsoChars_isoRender (y m d : Nat) (hy : y ≤ 9999) (hm : m ≤ 99) (hd : d ≤ 99) :
    readIsoFields (isoRender y m d) = some (y, m, d) := by
  show readIsoChars (isoRender y m d).data = some (y, m, d)
  have hdata : (isoRender y m d).data = [digitChar (y / 1000 % 10), digitChar (y / 100 % 10),
      digitChar (y / 10 % 10), digitChar (y % 10), '-',
      digitChar (m / 10 % 10), digitChar (m % 10), '-',
      digitChar (d / 10 % 10), digitChar (d % 10),
      'T', '0', '0', ':', '0', '0', ':', '0', '0'] := rfl
  rw [hdata]
  simp only [readIsoChars]
  have i0 : (digitChar (y / 1000 % 10)).isDigit = true := digitChar_isDigit _ (by omega)
  have i1 : (digitChar (y / 100 % 10)).isDigit = true := digitChar_isDigit _ (by omega)
  have i2 : (digitChar (y / 10 % 10)).isDigit = true := digitChar_isDigit _ (by omega)
  have i3 : (digitChar (y % 10)).isDigit = true := digitChar_isDigit _ (by omega)
  have i4 : (digitChar (m / 10 % 10)).isDigit = true := digitChar_isDigit _ (by omega)
  have i5 : (digitChar (m % 10)).isDigit = true := digitChar_isDigit _ (by omega)
  have i6 : (digitChar (d / 10 % 10)).isDigit = true := digitChar_isDigit _ (by omega)
  have i7 : (digitChar (d % 10)).isDigit = true := digitChar_isDigit _ (by omega)
  have v0 : digitVal (digitChar (y / 1000 % 10)) = y / 1000 % 10 := digitVal_digitChar _ (by omega)
  have v1 : digitVal (digitChar (y / 100 % 10)) = y / 100 % 10 := digitVal_digitChar _ (by omega)
  have v2 : digitVal (digitChar (y / 10 % 10)) = y / 10 % 10 := digitVal_digitChar _ (by omega)
  have v3 : digitVal (digitChar (y % 10)) = y % 10 := digitVal_digitChar _ (by omega)
  have v4 : digitVal (digitChar (m / 10 % 10)) = m / 10 % 10 := digitVal_digitChar _ (by omega)
  have v5 : digitVal (digitChar (m % 10)) = m % 10 := digitVal_digitChar _ (by omega)
  have v6 : digitVal (digitChar (d / 10 % 10)) = d / 10 % 10 := digitVal_digitChar _ (by omega)
  have v7 : digitVal (digitChar (d % 10)) = d % 10 := digitVal_digitChar _ (by omega)
  simp only [i0, i1, i2, i3, i4, i5, i6, i7, v0, v1, v2, v3, v4, v5, v6, v7,
    Bool.and_self, Bool.and_true, Bool.true_and, if_true]
  simp only [Option.some.injEq, Prod.mk.injEq]
  omega

/-! ## Claim theorems -/

/-- C1: `create_point_geojson` emits exactly one output Feature per input
record, in input order — the 0-based i-th feature is built from the i-th
record with sequence number `i + 1`, and `properties.number` of the i-th
feature equals `i + 1`; nothing is reordered, filtered or deduplicated, so
the feature count always equals the record count. -/
theorem create_point_geojson_one_feature_per_record (l : List Coord) :
    (create_point_geojson l).features.length = l.length ∧
    (∀ i, (create_point_geojson l).features.get? i
        = (l.get? i).map (fun c => mkFeature (i + 1) c)) ∧
    (∀ i f, (create_point_geojson l).features.get? i = some f → f.number = i + 1) := by
  have key : ∀ i, (create_point_geojson l).features.get? i
      = (l.get? i).map (fun c => mkFeature (i + 1) c) := by
    intro i
    have h := buildFeatures_get? l 1 i
    rw [Nat.add_comm 1 i] at h
    exact h
  refine ⟨buildFeatures_length l 1, key, fun i f hf => ?_⟩
  rw [key i] at hf
  rcases hl : l.get? i with _ | c
  · rw [hl] at hf
    exact Option.noConfusion hf
  · rw [hl] at hf
    simp only [Option.map_some', Option.some.injEq] at hf
    rw [← hf]
    rfl

/-- C1 witness: the theorem instantiated on a concrete two-record list. -/
theorem create_point_geojson_one_feature_per_record_witness :
    (create_point_geojson [⟨1, 2, []⟩, ⟨3, 4, []⟩]).features.length = 2 ∧
    ((create_point_geojson [⟨1, 2, []⟩, ⟨3, 4, []⟩]).features.get? 1).map Feature.number
      = some 2 := by
  obtain ⟨h1, h2, h3⟩ := create_point_geojson_one_feature_per_record [⟨1, 2, []⟩, ⟨3, 4, []⟩]
  have hget : (create_point_geojson [⟨1, 2, []⟩, ⟨3, 4, []⟩]).features.get? 1
      = some (mkFeature 2 ⟨3, 4, []⟩) := by
    rw [h2 1]
    rfl
  have hn := h3 1 (mkFeature 2 ⟨3, 4, []⟩) hget
  refine ⟨h1, ?_⟩
  rw [hget]
  simp [hn]

/-- C2: when both tokens parse as valid fixed-format dates,
`calculate_duration` returns the signed whole-day difference end minus
start, which is negative whenever the start is after the end; concretely,
duration("20012024", "15012024") = -5 and duration("01012024", "01012024")
= 0. -/
theorem calculate_duration_signed (a b : String) (da db : PDate)
    (ha : strptime_ddmmYYYY a = some da) (hb : strptime_ddmmYYYY b = some db) :
    calculate_duration a b = some ((toOrdinal db : Int) - (toOrdinal da : Int)) ∧
    (toOrdinal db < toOrdinal da →
      ∃ dur : Int, calculate_duration a b = some dur ∧ dur < 0) ∧
    calculate_duration "20012024" "15012024" = some (-5) ∧
    calculate_duration "01012024" "01012024" = some 0 := by
  refine ⟨calculate_duration_eq a b da db ha hb, ?_, by decide, by decide⟩
  intro hlt
  exact ⟨_, calculate_duration_eq a b da db ha hb, by omega⟩

/-- C2 witness: the theorem instantiated at the spec's example pair. -/
theorem calculate_duration_signed_witness :
    calculate_duration "15012024" "20012024"
      = some ((toOrdinal ⟨2024, 1, 20⟩ : Int) - (toOrdinal ⟨2024, 1, 15⟩ : Int)) :=
  (calculate_duration_signed "15012024" "20012024" ⟨2024, 1, 15⟩ ⟨2024, 1, 20⟩
    (by decide) (by decide)).1

/-- C3: whenever at least one of the two tokens does not parse to a valid
date (the sentinel "unknown", the empty token, or any malformed token),
`calculate_duration` returns null instead of failing; in particular
duration("unknown", "20012024") is null. -/
theorem calculate_duration_null_on_unparsable (a b : String)
    (h : strptime_ddmmYYYY a = none ∨ strptime_ddmmYYYY b = none) :
    calculate_duration a b = none ∧ calculate_duration "unknown" "20012024" = none := by
  refine ⟨?_, by decide⟩
  rcases h with h | h
  · exact calculate_duration_none_left a b h
  · exact calculate_duration_none_right a b h

/-- C3 witness: the theorem instantiated at the sentinel example. -/
theorem calculate_duration_null_on_unparsable_witness :
    calculate_duration "unknown" "20012024" = none :=
  (calculate_duration_null_on_unparsable "unknown" "20012024" (Or.inl (by decide))).1

/-- C4 counterexample: the claim that only 8-character day(2)+month(2)+year(4)
tokens parse is false: the 7-character token "1012024" is accepted by the
parser (read as day 10, month 1, year 2024), so format_date and
calculate_duration do not yield null on it. -/
theorem seven_char_token_parses :
    strptime_ddmmYYYY "1012024" = some ⟨2024, 1, 10⟩ ∧
    format_date "1012024" ≠ none ∧
    calculate_duration "1012024" "1012024" ≠ none := by
  refine ⟨by decide, by decide, by decide⟩

/-- C4 (amended): date parsing accepts exactly the tokens the strptime
regex matches — day (1-2 digits) + month (1-2 digits) + year (exactly 4
digits) spanning the whole token (hence 6 to 8 characters; two-digit day
and month are preferred, so a well-formed 8-character token is read
2+2+4) and encoding a valid calendar date; every rejected token — in
particular any token whose length is outside 6..8, or one with an invalid
month — parses as null, and format_date and calculate_duration yield null
for it. -/
theorem strptime_flexible_fixed_format :
    (∀ t, strptime_ddmmYYYY t = none → format_date t = none ∧
        ∀ u, calculate_duration t u = none ∧ calculate_duration u t = none) ∧
    (∀ t d, strptime_ddmmYYYY t = some d →
        6 ≤ t.data.length ∧ t.data.length ≤ 8 ∧ isValidDate d.year d.month d.day = true) ∧
    strptime_ddmmYYYY "15012024" = some ⟨2024, 1, 15⟩ ∧
    strptime_ddmmYYYY "1012024" = some ⟨2024, 1, 10⟩ ∧
    strptime_ddmmYYYY "15132024" = none := by
  refine ⟨?_, ?_, by decide, by decide, by decide⟩
  · intro t ht
    exact ⟨format_date_none t ht,
      fun u => ⟨calculate_duration_none_left t u ht, calculate_duration_none_right u t ht⟩⟩
  · intro t d h
    obtain ⟨hv, h6, h8⟩ := strptime_elim t d h
    exact ⟨h6, h8, hv⟩

/-- C4 witness: the amended theorem instantiated at a 3-character token
(rejected, nulls propagate) and the 8-character example. -/
theorem strptime_flexible_fixed_format_witness :
    format_date "999" = none ∧ calculate_duration "999" "15012024" = none ∧
    6 ≤ ("15012024" : String).data.length := by
  obtain ⟨h1, h2, h3, h4, h5⟩ := strptime_flexible_fixed_format
  exact ⟨(h1 "999" (by decide)).1, ((h1 "999" (by decide)).2 "15012024").1,
    (h2 "15012024" ⟨2024, 1, 15⟩ (by decide)).1⟩

/-- C5 counterexample: an explicitly empty field is kept verbatim, not
replaced by a default: the Document Builder keeps an empty name field
(and "" is not "Point 1"), and the file producer keeps empty name and
date fields (and "" is not "unknown"). -/
theorem empty_fields_not_defaulted :
    ((create_point_geojson [⟨1, 2, ["", "15012024", "20012024"]⟩]).features.get? 0).map
        Feature.name = some "" ∧
    ((read_coordinates_from_file ["1,2,SF,,"]).coordinates.get? 0).map Coord.fields
      = some ["SF", "", ""] ∧
    ("" : String) ≠ "Point 1" ∧ ("" : String) ≠ "unknown" := by
  refine ⟨by decide, by decide, by decide, by decide⟩

/-- C5 (amended): defaulting applies to absent fields only: a record with
no third/fourth/fifth tuple entry gets name "Point {1-based index}" and
date sentinel "unknown" in the Document Builder (so its formatted dates
and duration are null), and the file producer fills the same defaults for
a line holding only latitude and longitude, the index being the 1-based
position among the accepted records; an explicitly empty field is kept as
the empty string (an empty date token still degrades to null downstream,
both parsing and format_date of "" being null). -/
theorem absent_fields_defaulted :
    (∀ n lat lon, mkFeature n ⟨lat, lon, []⟩ = {
        number := n, name := "Point " ++ toString n, latitude := lat, longitude := lon,
        coordinates := [lon, lat], start_date := none, end_date := none,
        duration_days := none }) ∧
    (∀ line rest k acc lat lon p0 p1,
        pySplitComma (pyStrip line) = [p0, p1] →
        startsWithHash (pyStrip line) = false →
        parseFloat (pyStrip p0) = some lat → parseFloat (pyStrip p1) = some lon →
        readLoop (line :: rest) k acc
          = readLoop rest (k + 1)
              (acc ++ [⟨lat, lon, ["Point " ++ toString (acc.length + 1),
                                   "unknown", "unknown"]⟩])) ∧
    format_date "" = none ∧ strptime_ddmmYYYY "" = none := by
  refine ⟨fun n lat lon => rfl, ?_, by decide, by decide⟩
  intro line rest k acc lat lon p0 p1 hsplit hhash hlat hlon
  have hne : ¬ (pyStrip line = "" ∨ startsWithHash (pyStrip line) = true) := by
    rintro (h | h)
    · rw [h] at hsplit
      rw [show pySplitComma "" = [""] from rfl] at hsplit
      injection hsplit with h1 h2
      exact List.noConfusion h2
    · rw [hhash] at h
      exact Bool.noConfusion h
  simp only [readLoop, hsplit, List.getD_cons_zero, List.getD_cons_succ, hlat, hlon,
    List.get?_cons_succ, List.get?_cons_zero, List.get?_nil, List.length_cons,
    List.length_nil]
  rw [if_neg hne, if_neg (by omega)]

/-- C5 witness: the amended theorem instantiated at a short record and a
two-field line. -/
theorem absent_fields_defaulted_witness :
    (mkFeature 1 ⟨1, 2, []⟩).name = "Point 1" ∧
    readLoop ["1, 2"] 1 [] = readLoop [] 2 [⟨1, 2, ["Point 1", "unknown", "unknown"]⟩] := by
  obtain ⟨h1, h2, h3, h4⟩ := absent_fields_defaulted
  constructor
  · rw [h1 1 1 2]
    decide
  · exact h2 "1, 2" [] 1 [] 1 2 "1" " 2" (by decide) (by decide) (by decide) (by decide)

/-- C6: every token that parses as a valid fixed-format date is rendered
by format_date as the ISO-8601 date-time string of that date at midnight,
"YYYY-MM-DDT00:00:00" (zero-padded fields, literal "T00:00:00" suffix as
in `isoRender`); e.g. "15012024" maps to "2024-01-15T00:00:00"; for the
sentinel "unknown", the empty token, or any unparsable token the result
is null. -/
theorem format_date_iso_midnight :
    (∀ t d, strptime_ddmmYYYY t = some d →
        format_date t = some (isoRender d.year d.month d.day)) ∧
    (∀ t, strptime_ddmmYYYY t = none → format_date t = none) ∧
    format_date "15012024" = some "2024-01-15T00:00:00" ∧
    format_date "unknown" = none ∧
    format_date "" = none := by
  refine ⟨format_date_some, format_date_none, by decide, by decide, by decide⟩

/-- C6 witness: the theorem instantiated at the spec's example token. -/
theorem format_date_iso_midnight_witness :
    format_date "15012024" = some (isoRender 2024 1 15) :=
  format_date_iso_midnight.1 "15012024" ⟨2024, 1, 15⟩ (by decide)

/-- C7: each emitted feature's geometry coordinates are always the
two-element list [longitude, latitude], never [latitude, longitude],
although the input record stores latitude first. -/
theorem geometry_coordinates_lon_lat (l : List Coord) :
    (∀ n c, (mkFeature n c).coordinates = [c.lon, c.lat]) ∧
    (∀ i, ((create_point_geojson l).features.get? i).map Feature.coordinates
        = (l.get? i).map (fun c => [c.lon, c.lat])) := by
  refine ⟨fun n c => rfl, fun i => ?_⟩
  have h := buildFeatures_get? l 1 i
  show ((buildFeatures 1 l).get? i).map Feature.coordinates = _
  rw [h]
  cases l.get? i <;> rfl

/-- C8: the file reader's asymmetric error policy: a non-blank,
non-comment line with fewer than two comma-separated parts only adds a
diagnostic carrying its 1-based line number, the records being those of
the remaining lines (read with the next line number); whereas a line
whose latitude or longitude field fails numeric parsing ends the read at
once — the result is exactly the records accumulated from the earlier
lines plus a diagnostic, the remaining lines never being processed. -/
theorem read_file_error_policy :
    (∀ line rest n acc, pyStrip line ≠ "" → startsWithHash (pyStrip line) = false →
        (pySplitComma (pyStrip line)).length < 2 →
        readLoop (line :: rest) n acc
          = ⟨(readLoop rest (n + 1) acc).coordinates,
             lineSkipDiag n :: (readLoop rest (n + 1) acc).diags⟩) ∧
    (∀ line rest n acc p0 p1 ps, pySplitComma (pyStrip line) = p0 :: p1 :: ps →
        startsWithHash (pyStrip line) = false →
        parseFloat (pyStrip p0) = none →
        readLoop (line :: rest) n acc = ⟨acc, [fileErrorDiag]⟩) ∧
    (∀ line rest n acc p0 p1 ps lat, pySplitComma (pyStrip line) = p0 :: p1 :: ps →
        startsWithHash (pyStrip line) = false →
        parseFloat (pyStrip p0) = some lat → parseFloat (pyStrip p1) = none →
        readLoop (line :: rest) n acc = ⟨acc, [fileErrorDiag]⟩) := by
  have hnotblank : ∀ (line : String) (p0 p1 : String) (ps : List String),
      pySplitComma (pyStrip line) = p0 :: p1 :: ps → pyStrip line ≠ "" := by
    intro line p0 p1 ps hsplit h
    rw [h] at hsplit
    rw [show pySplitComma "" = [""] from rfl] at hsplit
    injection hsplit with h1 h2
    exact List.noConfusion h2
  refine ⟨?_, ?_, ?_⟩
  · intro line rest n acc hblank hhash hlen
    have hne : ¬ (pyStrip line = "" ∨ startsWithHash (pyStrip line) = true) := by
      rintro (h | h)
      · exact hblank h
      · rw [hhash] at h
        exact Bool.noConfusion h
    simp only [readLoop]
    rw [if_neg hne, if_pos hlen]
  · intro line rest n acc p0 p1 ps hsplit hhash h0
    have hne : ¬ (pyStrip line = "" ∨ startsWithHash (pyStrip line) = true) := by
      rintro (h | h)
      · exact hnotblank line p0 p1 ps hsplit h
      · rw [hhash] at h
        exact Bool.noConfusion h
    simp only [readLoop, hsplit, List.getD_cons_zero, List.getD_cons_succ, h0]
    rw [if_neg hne, if_neg (by simp)]
  · intro line rest n acc p0 p1 ps lat hsplit hhash h0 h1
    have hne : ¬ (pyStrip line = "" ∨ startsWithHash (pyStrip line) = true) := by
      rintro (h | h)
      · exact hnotblank line p0 p1 ps hsplit h
      · rw [hhash] at h
        exact Bool.noConfusion h
    simp only [readLoop, hsplit, List.getD_cons_zero, List.getD_cons_succ, h0, h1]
    rw [if_neg hne, if_neg (by simp)]

/-- C8 witness: the three cases of the theorem instantiated on concrete
lines: a comma-less line is skipped with a numbered diagnostic, and a bad
latitude or longitude aborts with exactly the accumulated records. -/
theorem read_file_error_policy_witness :
    readLoop ["badline"] 5 [] = ⟨[], [lineSkipDiag 5]⟩ ∧
    readLoop ["x,2", "3,4"] 2 [⟨1, 2, ["a", "b", "c"]⟩]
      = ⟨[⟨1, 2, ["a", "b", "c"]⟩], [fileErrorDiag]⟩ ∧
    readLoop ["3,y", "5,6"] 1 [] = ⟨[], [fileErrorDiag]⟩ := by
  obtain ⟨h1, h2, h3⟩ := read_file_error_policy
  refine ⟨?_, ?_, ?_⟩
  · rw [h1 "badline" [] 5 [] (by decide) (by decide) (by decide)]
    rfl
  · exact h2 "x,2" ["3,4"] 2 [⟨1, 2, ["a", "b", "c"]⟩] "x" "2" []
      (by decide) (by decide) (by decide)
  · exact h3 "3,y" ["5,6"] 1 [] "3" "y" [] 3 (by decide) (by decide) (by decide) (by decide)

/-- C9: for every token that parses as a valid fixed-format date,
rendering it with format_date and reading the year, month and day fields
back from the rendered ISO string yields exactly the calendar date
obtained by parsing the token directly: format followed by reparse is the
identity on the date value. -/
theorem format_reparse_roundtrip (t : String) (d : PDate)
    (h : strptime_ddmmYYYY t = some d) :
    (format_date t).bind readIsoFields = some (d.year, d.month, d.day) := by
  rw [format_date_some t d h]
  have hb := strptime_bounds t d h
  show readIsoFields (isoRender d.year d.month d.day) = some (d.year, d.month, d.day)
  exact readIsoChars_isoRender d.year d.month d.day (by omega) (by omega) (by omega)

/-- C9 witness: the round trip instantiated at the example token. -/
theorem format_reparse_roundtrip_witness :
    (format_date "15012024").bind readIsoFields = some (2024, 1, 15) :=
  format_reparse_roundtrip "15012024" ⟨2024, 1, 15⟩ (by decide)

/-- C10: calculate_duration is antisymmetric in its arguments: whenever
duration(a, b) is a non-null integer d, duration(b, a) = -d, and
duration(a, b) is null exactly when duration(b, a) is null. -/
theorem calculate_duration_antisym (a b : String) :
    (∀ dur : Int, calculate_duration a b = some dur →
        calculate_duration b a = some (-dur)) ∧
    (calculate_duration a b = none ↔ calculate_duration b a = none) := by
  constructor
  · intro dur hd
    rcases ha : strptime_ddmmYYYY a with _ | da
    · rw [calculate_duration_none_left a b ha] at hd
      exact Option.noConfusion hd
    · rcases hb : strptime_ddmmYYYY b with _ | db
      · rw [calculate_duration_none_right a b hb] at hd
        exact Option.noConfusion hd
      · rw [calculate_duration_eq a b da db ha hb] at hd
        injection hd with hd
        rw [calculate_duration_eq b a db da hb ha, ← hd]
        congr 1
        omega
  · constructor
    · intro hd
      rcases ha : strptime_ddmmYYYY a with _ | da
      · exact calculate_duration_none_right b a ha
      · rcases hb : strptime_ddmmYYYY b with _ | db
        · exact calculate_duration_none_left b a hb
        · rw [calculate_duration_eq a b da db ha hb] at hd
          exact Option.noConfusion hd
    · intro hd
      rcases ha : strptime_ddmmYYYY a with _ | da
      · exact calculate_duration_none_left a b ha
      · rcases hb : strptime_ddmmYYYY b with _ | db
        · exact calculate_duration_none_right a b hb
        · rw [calculate_duration_eq b a db da hb ha] at hd
          exact Option.noConfusion hd

/-- C10 witness: the antisymmetry applied to the example pair. -/
theorem calculate_duration_antisym_witness :
    calculate_duration "20012024" "15012024" = some (-5) :=
  (calculate_duration_antisym "15012024" "20012024").1 5 (by decide)
